import Mathlib

/-!
# asl-chat-app: the Chat component and the MiniPlayer

A shallow embedding of `asl-frontend/src/Chat.js`, `MiniPlayer.js` and
`EmojiBoard.js`.  React state is an explicit record, every handler is a
function from the record to the record after the handler plus the list of side
effects it issued, in order.  A handler holds the constants of the render that
built it: `handleSearch` is split at its `await`, and the player is run with
the rendered state apart from the current one.

JavaScript strings are sequences of UTF-16 code units, and the regular
expression of `playTranslation` has no `u` flag, so it works on code units:
strings are lists of code units here.
-/

namespace AslChat

/-! ## JavaScript strings -/

/-- A JavaScript string: its UTF-16 code units. -/
abbrev JSString := List Nat

/-- UTF-16 code units of one code point. -/
def utf16Char (c : Nat) : List Nat :=
  if c < 0x10000 then [c]
  else [0xD800 + (c - 0x10000) / 0x400, 0xDC00 + (c - 0x10000) % 0x400]

/-- The JavaScript string written by a source literal. -/
def utf16 (s : String) : JSString :=
  s.data.flatMap (fun ch => utf16Char ch.toNat)

/-- Code units that `String.prototype.trim` strips: the ECMAScript WhiteSpace
and LineTerminator productions. -/
def isWhiteSpace (c : Nat) : Bool :=
  c == 0x09 || c == 0x0A || c == 0x0B || c == 0x0C || c == 0x0D || c == 0x20 ||
  c == 0xA0 || c == 0x1680 || (0x2000 ≤ c && c ≤ 0x200A) || c == 0x2028 ||
  c == 0x2029 || c == 0x202F || c == 0x205F || c == 0x3000 || c == 0xFEFF

/-- The method `String.prototype.trim`. -/
def trim (s : JSString) : JSString :=
  ((s.dropWhile isWhiteSpace).reverse.dropWhile isWhiteSpace).reverse

/-- Truthiness of a string: `""` is the only falsy one. -/
def truthy (s : JSString) : Bool := !s.isEmpty

/-! ## Data model -/

/-- The session user (`useAuth().user`). -/
structure User where
  username : JSString
  phone : JSString
  role : JSString
deriving DecidableEq, Repr

/-- An entry of `recentChats`, or the result of `/search`. -/
structure Contact where
  username : JSString
  phone : JSString
  role : JSString
deriving DecidableEq, Repr

/-- An element of `messages`. -/
structure Message where
  sender : JSString
  text : JSString
  isMe : Bool
deriving DecidableEq, Repr

/-- A message as `GET /messages` returns it, before `isMe` is attached. -/
structure RawMessage where
  sender : JSString
  text : JSString
deriving DecidableEq, Repr

/-- The parsed `event.data` of the socket, by its `type` discriminator. -/
inductive WsData where
  | typing (sender : JSString)
  | message (sender : JSString) (text : JSString)
  | other
deriving DecidableEq, Repr

/-- Side effects a handler issues. -/
inductive Effect where
  | fetchRecents
  | wsSendTyping (receiver : JSString)
  | wsSendMessage (receiver : JSString) (text : JSString)
  | alert (msg : JSString)
  | translateRequest (text : JSString)
deriving DecidableEq, Repr

/-- A pending browser timer whose callback is `() => setIsTyping(false)`. -/
structure Timer where
  id : Nat
  due : Nat
deriving DecidableEq, Repr

/-- The state of `Chat` (lines 14-29), the browser's table of pending typing
timers, and the `showReplay` state of the `MiniPlayer` it mounts. -/
structure ChatState where
  recentChats : List Contact
  activeContact : Option Contact
  messages : List Message
  inputText : JSString
  searchPhone : JSString
  playQueue : List JSString
  currentVideoIndex : Int
  isPlayerOpen : Bool
  showEmojiBoard : Bool
  isTyping : Bool
  typingTimeoutRef : Option Nat
  timers : List Timer
  nextTimerId : Nat
  showReplay : Bool
deriving DecidableEq, Repr

/-- The state at mount: the `useState` and `useRef` initial values. -/
def ChatState.init : ChatState :=
  { recentChats := [], activeContact := none, messages := [], inputText := [],
    searchPhone := [], playQueue := [], currentVideoIndex := -1,
    isPlayerOpen := false, showEmojiBoard := false, isTyping := false,
    typingTimeoutRef := none, timers := [], nextTimerId := 1, showReplay := false }

/-! ## Realtime channel: `socketRef.current.onmessage` -/

/-- The call `clearTimeout(id)`. -/
def clearTimeout (id : Nat) (s : ChatState) : ChatState :=
  { s with timers := s.timers.filter (fun t => t.id != id) }

/-- The debounce delay of the typing indicator, in milliseconds. -/
def typingDelay : Nat := 2000

/-- The test `activeContact && data.sender === activeContact.phone`. -/
def isFromActiveContact (sender : JSString) (s : ChatState) : Bool :=
  match s.activeContact with
  | none => false
  | some c => sender == c.phone

/-- The handler `socketRef.current.onmessage` (Chat.js 47-70), run at time
`now`.  Timer handles are positive, so a stored handle is truthy. -/
def onmessage (user : User) (now : Nat) (data : WsData) (s : ChatState) :
    ChatState × List Effect :=
  match data with
  | .typing sender =>
    if isFromActiveContact sender s then
      let s1 := { s with isTyping := true }
      let s2 := match s1.typingTimeoutRef with
        | some id => clearTimeout id s1
        | none => s1
      ({ s2 with
          typingTimeoutRef := some s2.nextTimerId
          timers := s2.timers ++ [⟨s2.nextTimerId, now + typingDelay⟩]
          nextTimerId := s2.nextTimerId + 1 }, [])
    else (s, [])
  | .message sender text =>
    let s1 := { s with isTyping := false }
    let fx := if sender != user.phone then [Effect.fetchRecents] else []
    if isFromActiveContact sender s then
      ({ s1 with messages := s1.messages ++ [⟨sender, text, false⟩] }, fx)
    else (s1, fx)
  | .other => (s, [])

/-! ## Sending: `sendMessage` -/

/-- The function `sendMessage` (Chat.js 129-144); `socketOpen` is
`socketRef.current?.readyState === WebSocket.OPEN`. -/
def sendMessage (user : User) (socketOpen : Bool) (s : ChatState) :
    ChatState × List Effect :=
  if !truthy (trim s.inputText) then (s, [])
  else match s.activeContact with
    | none => (s, [])
    | some c =>
      let textToSend := s.inputText
      ({ s with
          inputText := []
          showEmojiBoard := false
          messages := s.messages ++ [⟨user.phone, textToSend, true⟩] },
        if socketOpen then [Effect.wsSendMessage c.phone textToSend] else [])

/-! ## Contact directory: `handleContactSelect`, `handleSearch` -/

/-- The callback of `res.data.map`: it attaches `isMe: m.sender === user.phone`. -/
def withIsMe (user : User) (m : RawMessage) : Message :=
  ⟨m.sender, m.text, m.sender == user.phone⟩

/-- The function `handleContactSelect` (Chat.js 91-100) together with the
outcome of its history request: `some data` when `GET /messages` resolves,
`none` when it rejects. -/
def handleContactSelect (user : User) (contact : Contact)
    (history : Option (List RawMessage)) (s : ChatState) : ChatState :=
  let s1 := { s with activeContact := some contact, isTyping := false }
  match history with
  | some data => { s1 with messages := data.map (withIsMe user) }
  | none => s1

/-- What a call of `handleSearch` holds while it awaits the response: the
constants `recentChats` and `searchPhone` of the render whose handler was
invoked. -/
structure SearchCall where
  recentChats : List Contact
  searchPhone : JSString
deriving DecidableEq, Repr

/-- The function `handleSearch` up to its `await` (Chat.js 77-80), invoked in
the render of state `s`: no request for a blank field, otherwise the request
goes out and the call keeps the constants of that render. -/
def handleSearchCall (s : ChatState) : Option SearchCall :=
  if !truthy (trim s.searchPhone) then none
  else some ⟨s.recentChats, s.searchPhone⟩

/-- The function `handleSearch` from its `await` on (Chat.js 80-88), resumed in
state `s` with the outcome of the request of `call`: `some found` when
`GET /search` resolves, `none` when it rejects.  The test `exists` reads the
`recentChats` the call holds, the updater of `setRecentChats` gets the list
current at the response.  `history` is the outcome of the history request of
the selection it makes. -/
def handleSearch (user : User) (call : SearchCall) (response : Option Contact)
    (history : Option (List RawMessage)) (s : ChatState) : ChatState × List Effect :=
  match response with
  | none => (s, [Effect.alert (utf16 "User not found")])
  | some found =>
    let exists_ := call.recentChats.find? (fun c => c.phone == found.phone)
    let s1 := if exists_.isNone then { s with recentChats := found :: s.recentChats } else s
    let s2 := handleContactSelect user found history s1
    ({ s2 with searchPhone := [] }, [])

/-! ## Compose field: `handleTyping`, `handleEmojiSelect` -/

/-- The function `handleTyping` (Chat.js 114-122) for `e.target.value = value`. -/
def handleTyping (value : JSString) (socketOpen : Bool) (s : ChatState) :
    ChatState × List Effect :=
  ({ s with inputText := value },
    match s.activeContact with
    | some c => if socketOpen then [Effect.wsSendTyping c.phone] else []
    | none => [])

/-- The function `handleEmojiSelect` (Chat.js 124-127). -/
def handleEmojiSelect (emoji word : JSString) (s : ChatState) : ChatState :=
  let combined := emoji ++ utf16 " " ++ word
  { s with inputText := s.inputText ++ (if truthy s.inputText then utf16 " " else []) ++ combined }

/-! ## Augmentative input board: `AAC_DICTIONARY` -/

/-- The table `AAC_DICTIONARY` (EmojiBoard.js 3-10), keys and values as the
source file spells them. -/
def AAC_DICTIONARY : List (String × String) :=
  [("рЯС§", "I"), ("рЯЂµ", "You"), ("рЯС•", "We"), ("вЭУ", "Who"),
   ("рЯФЩ", "did"), ("вЬЕ", "finished"), ("рЯУЕ", "yesterday"), ("рЯФЬ", "will"), ("вП∞", "now"),
   ("рЯНљпЄП", "eat"), ("рЯШЛ", "ate"), ("рЯ•§", "drink"), ("рЯЪґ", "go"), ("рЯПГ", "ran"),
   ("рЯСА", "see"), ("рЯСБпЄП", "saw"), ("рЯЫС", "stop"), ("вЭ§пЄП", "love"), ("рЯЧ£пЄП", "said"),
   ("рЯСЛ", "Hello"), ("рЯСН", "Yes"), ("рЯСО", "No"), ("рЯЩП", "Please"), ("рЯ§Э", "Thanks"),
   ("рЯНЧ", "chicken"), ("рЯНХ", "pizza"), ("рЯП†", "home"), ("рЯПЂ", "school"), ("рЯХР", "time")]

/-- What a board button puts into the compose field when it is empty: the
template string of `handleEmojiSelect`. -/
def boardOutput (entry : String × String) : JSString :=
  utf16 entry.1 ++ utf16 " " ++ utf16 entry.2

/-! ## Translation: `playTranslation` -/

/-- Membership in a character class range `[lo-hi]`. -/
def inRange (lo hi c : Nat) : Bool := lo ≤ c && c ≤ hi

/-- The one-unit alternatives of the pattern of `playTranslation`:
`[\u2700-\u27BF]`, `[\uE000-\uF8FF]`, `[\u2011-\u26FF]`. -/
def emojiUnit (c : Nat) : Bool :=
  inRange 0x2700 0x27BF c || inRange 0xE000 0xF8FF c || inRange 0x2011 0x26FF c

/-- The two-unit alternatives of the pattern: `\uD83C[\uDC00-\uDFFF]`,
`\uD83D[\uDC00-\uDFFF]`, `\uD83E[\uDD10-\uDDFF]`. -/
def emojiPair (c d : Nat) : Bool :=
  (c == 0xD83C && inRange 0xDC00 0xDFFF d) ||
  (c == 0xD83D && inRange 0xDC00 0xDFFF d) ||
  (c == 0xD83E && inRange 0xDD10 0xDDFF d)

/-- The call `text.replace(/(...)/g, '')` of `playTranslation`: a left-to-right
scan that drops every match.  No one-unit class contains `D83C`, `D83D` or
`D83E`, so the order of the alternatives does not matter. -/
def removeEmoji : JSString → JSString
  | [] => []
  | c :: tl =>
    if emojiUnit c then removeEmoji tl
    else match tl with
      | [] => [c]
      | d :: rest =>
        if emojiPair c d then removeEmoji rest else c :: removeEmoji (d :: rest)

/-- The value `cleanText` of `playTranslation` (Chat.js 149). -/
def cleanText (text : JSString) : JSString := trim (removeEmoji text)

/-- An item of the `sequence` of a translate response. -/
structure SeqItem where
  type : JSString
  url : JSString
deriving DecidableEq, Repr

/-- The list `seq` of `playTranslation` (Chat.js 159). -/
def videoSeq (sequence : List SeqItem) : List JSString :=
  (sequence.filter (fun i => i.type == utf16 "video")).map (fun i => i.url)

/-! ## MiniPlayer wiring (Chat.js 284-291) and `MiniPlayer.js` -/

/-- The guard `isPlayerOpen && playQueue.length > 0` under which `MiniPlayer`
is mounted. -/
def playerMounted (s : ChatState) : Bool :=
  s.isPlayerOpen && decide (0 < s.playQueue.length)

/-- The `src` prop; `none` is `undefined`. -/
def playerSrc (s : ChatState) : Option JSString :=
  if 0 ≤ s.currentVideoIndex then s.playQueue[s.currentVideoIndex.toNat]?
  else s.playQueue[s.playQueue.length - 1]?

/-- Whether the `onEnded` prop is a function rather than `null`. -/
def hasOnEnded (s : ChatState) : Bool :=
  decide (0 ≤ s.currentVideoIndex) &&
    decide (s.currentVideoIndex < (s.playQueue.length : Int) - 1)

/-- Whether the `video` element exists: the player is mounted and passes
`if (!src) return null`. -/
def videoPresent (s : ChatState) : Bool :=
  playerMounted s &&
    (match playerSrc s with
     | some u => truthy u
     | none => false)

/-- Whether the replay overlay is on screen: `showReplay && !onEnded` inside a
player that renders. -/
def replayShown (s : ChatState) : Bool :=
  videoPresent s && s.showReplay && !hasOnEnded s

/-- The render that follows a state change from `before` to `after`: an
unmounted or freshly mounted player has the initial `showReplay`, and the
effect on `[src]` runs `attemptPlay`, which clears `showReplay`, when the
`video` element exists. -/
def afterRender (before after : ChatState) : ChatState :=
  if !playerMounted after then { after with showReplay := false }
  else if !playerMounted before then { after with showReplay := false }
  else if videoPresent after && playerSrc before != playerSrc after then
    { after with showReplay := false }
  else after

/-- The function `playTranslation` (Chat.js 147-170) together with the outcome
of its request: `some sequence` when `GET /translate` resolves, `none` when it
rejects. -/
def playTranslation (text : JSString) (response : Option (List SeqItem))
    (s : ChatState) : ChatState × List Effect :=
  let clean := cleanText text
  if !truthy clean then (s, [Effect.alert (utf16 "No translatable text found.")])
  else match response with
    | none => (s, [Effect.translateRequest clean])
    | some sequence =>
      let seq := videoSeq sequence
      if 0 < seq.length then
        (afterRender s { s with playQueue := seq, currentVideoIndex := 0, isPlayerOpen := true },
          [Effect.translateRequest clean])
      else
        (s, [Effect.translateRequest clean,
             Effect.alert (utf16 "No video translation available for: " ++ clean)])

/-- The function `handleVideoEnded` (MiniPlayer.js 32-38) with the `onEnded`
prop of Chat.js 287. -/
def handleVideoEnded (s : ChatState) : ChatState :=
  if hasOnEnded s then afterRender s { s with currentVideoIndex := s.currentVideoIndex + 1 }
  else { s with showReplay := true }

/-- The function `handleReplayClick` (MiniPlayer.js 40-53) with the `onReplay`
prop of Chat.js 289; the delayed `attemptPlay` clears `showReplay` again. -/
def handleReplayClick (s : ChatState) : ChatState :=
  afterRender s { s with showReplay := false, currentVideoIndex := 0 }

/-- The `onClose` prop of Chat.js 288. -/
def closePlayer (s : ChatState) : ChatState :=
  afterRender s { s with isPlayerOpen := false, playQueue := [], currentVideoIndex := -1 }

/-! ## The player between renders -/

/-- A state update a handler asks for: a call of a `useState` setter. -/
inductive Update where
  | setPlayQueue (seq : List JSString)
  | setCurrentVideoIndex (i : Int)
  | nextVideoIndex
  | setIsPlayerOpen (b : Bool)
  | setShowReplay (b : Bool)
deriving DecidableEq, Repr

/-- The state with one update applied; `nextVideoIndex` is the updater
`p => p+1` of Chat.js 287. -/
def applyUpdate (s : ChatState) (u : Update) : ChatState :=
  match u with
  | .setPlayQueue seq => { s with playQueue := seq }
  | .setCurrentVideoIndex i => { s with currentVideoIndex := i }
  | .nextVideoIndex => { s with currentVideoIndex := s.currentVideoIndex + 1 }
  | .setIsPlayerOpen b => { s with isPlayerOpen := b }
  | .setShowReplay b => { s with showReplay := b }

/-- The state with a list of updates applied in order. -/
def applyUpdates (s : ChatState) (us : List Update) : ChatState :=
  us.foldl applyUpdate s

/-- The updates of `playTranslation` once `GET /translate` has resolved with
`sequence` (Chat.js 159-163). -/
def translateUpdates (sequence : List SeqItem) : List Update :=
  if 0 < (videoSeq sequence).length then
    [.setPlayQueue (videoSeq sequence), .setCurrentVideoIndex 0, .setIsPlayerOpen true]
  else []

/-- The updates of `handleVideoEnded` (MiniPlayer.js 32-38) of the player
rendered from `rendered`: its `onEnded` prop was built in that render
(Chat.js 287), there the bound is tested; the updater itself does not test. -/
def endedUpdates (rendered : ChatState) : List Update :=
  if hasOnEnded rendered then [.nextVideoIndex] else [.setShowReplay true]

/-- The updates of `handleReplayClick` (MiniPlayer.js 40-45, Chat.js 289). -/
def replayUpdates : List Update := [.setShowReplay false, .setCurrentVideoIndex 0]

/-- The updates of the `onClose` prop (Chat.js 288). -/
def closeUpdates : List Update :=
  [.setIsPlayerOpen false, .setPlayQueue [], .setCurrentVideoIndex (-1)]

/-- The player as React runs it: `cur` is the state with every update applied
so far, `rendered` the state of the last render.  The mounted `MiniPlayer`, its
props and its handlers are those of `rendered`. -/
structure PlayerView where
  cur : ChatState
  rendered : ChatState
deriving DecidableEq, Repr

/-- The view at mount. -/
def PlayerView.init : PlayerView := ⟨ChatState.init, ChatState.init⟩

/-- What can happen to the player. -/
inductive PlayerOp where
  | translated (sequence : List SeqItem)
  | ended
  | replay
  | close
  | render
deriving DecidableEq, Repr

/-- One player operation.  The `ended` event needs the `video` element of the
last render, the replay button is part of its overlay, the close button part
of its header; a handler updates the current state, and only `render` brings
the rendered state up to it. -/
def stepPlayer (r : PlayerView) (op : PlayerOp) : PlayerView :=
  match op with
  | .translated sequence => { r with cur := applyUpdates r.cur (translateUpdates sequence) }
  | .ended =>
    if videoPresent r.rendered then
      { r with cur := applyUpdates r.cur (endedUpdates r.rendered) }
    else r
  | .replay =>
    if replayShown r.rendered then { r with cur := applyUpdates r.cur replayUpdates } else r
  | .close =>
    if videoPresent r.rendered then { r with cur := applyUpdates r.cur closeUpdates } else r
  | .render => ⟨afterRender r.rendered r.cur, afterRender r.rendered r.cur⟩

/-- The range of the index of the play queue: at least -1 and below the
length of the queue. -/
def InRange (s : ChatState) : Prop :=
  -1 ≤ s.currentVideoIndex ∧ s.currentVideoIndex < (s.playQueue.length : Int)

/-- The view after a sequence of player operations. -/
def runPlayer (r : PlayerView) (ops : List PlayerOp) : PlayerView :=
  ops.foldl stepPlayer r

/-- The view after a sequence of player operations each of which is rendered
before the next one arrives. -/
def runPlayerRendered (r : PlayerView) (ops : List PlayerOp) : PlayerView :=
  ops.foldl (fun v op => stepPlayer (stepPlayer v op) .render) r

/-! ## Conversation view as a state machine -/

/-- What can happen to the conversation view. -/
inductive ChatEvent where
  | editSearch (value : JSString)
  | search (response : Option Contact) (history : Option (List RawMessage))
  | recents (data : List Contact)
  | select (contact : Contact) (history : Option (List RawMessage))
  | edit (value : JSString) (socketOpen : Bool)
  | send (socketOpen : Bool)
  | inbound (now : Nat) (data : WsData)
deriving DecidableEq, Repr

/-- One event.  A contact card exists only for a directory entry; `search` is
a search whose response arrives before anything else happens. -/
def stepChat (user : User) (s : ChatState) (ev : ChatEvent) : ChatState :=
  match ev with
  | .editSearch value => { s with searchPhone := value }
  | .search response history =>
    match handleSearchCall s with
    | none => s
    | some call => (handleSearch user call response history s).1
  | .recents data => { s with recentChats := data }
  | .select contact history =>
    if contact ∈ s.recentChats then handleContactSelect user contact history s else s
  | .edit value socketOpen => (handleTyping value socketOpen s).1
  | .send socketOpen => (sendMessage user socketOpen s).1
  | .inbound now data => (onmessage user now data s).1

/-- The state after a sequence of events, from the state at mount. -/
def runChat (user : User) (evs : List ChatEvent) : ChatState :=
  evs.foldl (stepChat user) ChatState.init

/-- The invariant of claim C3 on one message. -/
def isMeDerived (user : User) (m : Message) : Bool :=
  m.isMe == (m.sender == user.phone)

/-! ## Typing indicator with explicit time -/

/-- The clock reaches `t`: every pending timer that is due fires, and its
callback sets `isTyping` to false. -/
def advance (t : Nat) (s : ChatState) : ChatState :=
  if s.timers.any (fun tm => decide (tm.due ≤ t)) then
    { s with isTyping := false, timers := s.timers.filter (fun tm => decide (t < tm.due)) }
  else s

/-- The state after `typing` events from `sender` at the given times. -/
def runTyping (user : User) (sender : JSString) : List Nat → ChatState → ChatState
  | [], s => s
  | t :: ts, s => runTyping user sender ts (onmessage user t (.typing sender) (advance t s)).1

/-- The typing indicator at instant `t`, when `typing` events from `sender`
arrive at the times `events` and nothing else happens. -/
def indicatorAt (user : User) (sender : JSString) (events : List Nat) (s : ChatState)
    (t : Nat) : Bool :=
  (advance t (runTyping user sender (events.filter (fun e => decide (e ≤ t))) s)).isTyping

/-- The typing indicator is on and exactly one debounce timer, the one the ref
holds, is pending, due `typingDelay` after `t`. -/
def Armed (c : Contact) (t : Nat) (s : ChatState) : Prop :=
  s.activeContact = some c ∧ s.isTyping = true ∧
    ∃ id, s.typingTimeoutRef = some id ∧ s.timers = [⟨id, t + typingDelay⟩]

/-- Every pending timer is the one `typingTimeoutRef` holds: the handler clears
the timer it replaces, so no second one is ever left pending. -/
def TimersTracked (s : ChatState) : Prop :=
  ∀ tm ∈ s.timers, s.typingTimeoutRef = some tm.id

/-- The last instant of a non-empty sequence of instants, given by its first
element and the rest. -/
def lastTime : Nat → List Nat → Nat
  | t, [] => t
  | _, u :: rest => lastTime u rest

/-- Instants `t < u1 < u2 < ...` in which every gap is below `typingDelay`. -/
def closelySpaced : Nat → List Nat → Bool
  | _, [] => true
  | t, u :: rest => decide (t < u) && decide (u < t + typingDelay) && closelySpaced u rest

/-! ## Specification-side definitions -/

/-- Number of directory refreshes among the effects. -/
def refreshCount (fx : List Effect) : Nat := fx.count Effect.fetchRecents

/-- The play queue in the words of the specification: the url fields of the
items whose type is "video", in the order of the response. -/
def videoUrls : List SeqItem → List JSString
  | [] => []
  | i :: rest => if i.type = utf16 "video" then i.url :: videoUrls rest else videoUrls rest

/-! ## Theorems -/

/-! ### Inbound `message` events -/

/-- C1, as amended: for an inbound `message` event whose sender is not the
active contact's phone (also when no contact is active), `onmessage` leaves the
message list unchanged, and it calls `fetchRecents` exactly once when the
sender differs from the session user's phone and not at all when the sender is
the session user's phone. -/
theorem onmessage_message_not_active (user : User) (now : Nat) (sender text : JSString)
    (s : ChatState) (h : isFromActiveContact sender s = false) :
    (onmessage user now (.message sender text) s).1.messages = s.messages ∧
    refreshCount (onmessage user now (.message sender text) s).2 =
      if sender = user.phone then 0 else 1 := by
  by_cases hs : sender = user.phone
  · subst hs
    simp [onmessage, h, refreshCount]
  · simp [onmessage, h, hs, refreshCount]

/-- Witness for C1 as amended: with no active contact, a message from a phone
other than the session user's leaves the empty list empty and refreshes once. -/
theorem onmessage_message_not_active_witness :
    isFromActiveContact (utf16 "5551234") ChatState.init = false ∧
    ((onmessage ⟨utf16 "me", utf16 "5550000", utf16 "deaf"⟩ 0
        (.message (utf16 "5551234") (utf16 "hi")) ChatState.init).1.messages =
      ChatState.init.messages ∧
     refreshCount (onmessage ⟨utf16 "me", utf16 "5550000", utf16 "deaf"⟩ 0
        (.message (utf16 "5551234") (utf16 "hi")) ChatState.init).2 =
      if utf16 "5551234" = (⟨utf16 "me", utf16 "5550000", utf16 "deaf"⟩ : User).phone
        then 0 else 1) :=
  ⟨by decide, onmessage_message_not_active _ 0 (utf16 "5551234") (utf16 "hi")
    ChatState.init (by decide)⟩

/-- C1 fails as stated: with no active contact, a `message` event whose sender
is the session user's own phone differs from the (absent) active contact, and
`onmessage` issues no directory refresh at all. -/
theorem onmessage_own_message_no_refresh :
    isFromActiveContact (utf16 "5550000") ChatState.init = false ∧
    refreshCount (onmessage ⟨utf16 "me", utf16 "5550000", utf16 "deaf"⟩ 0
        (.message (utf16 "5550000") (utf16 "hi")) ChatState.init).2 = 0 := by
  decide

/-- C2: for an inbound `message` event whose sender is the active contact's
phone, `onmessage` sets the typing indicator to false and the new message list
is the old one followed by exactly one message with the event's sender and
text. -/
theorem onmessage_message_active (user : User) (now : Nat) (c : Contact)
    (sender text : JSString) (s : ChatState)
    (hc : s.activeContact = some c) (hs : sender = c.phone) :
    (onmessage user now (.message sender text) s).1.isTyping = false ∧
    (onmessage user now (.message sender text) s).1.messages =
      s.messages ++ [⟨sender, text, false⟩] := by
  have h : isFromActiveContact sender s = true := by
    simp [isFromActiveContact, hc, hs]
  simp [onmessage, h]

/-- Witness for C2: Ann is active with one message on screen and sends "hi". -/
theorem onmessage_message_active_witness :
    ({ ChatState.init with
        activeContact := some ⟨utf16 "Ann", utf16 "5551234", utf16 "hearing"⟩
        isTyping := true
        messages := [⟨utf16 "5550000", utf16 "yo", true⟩] } : ChatState).activeContact =
      some ⟨utf16 "Ann", utf16 "5551234", utf16 "hearing"⟩ ∧
    (onmessage ⟨utf16 "me", utf16 "5550000", utf16 "deaf"⟩ 7
        (.message (utf16 "5551234") (utf16 "hi"))
        { ChatState.init with
          activeContact := some ⟨utf16 "Ann", utf16 "5551234", utf16 "hearing"⟩
          isTyping := true
          messages := [⟨utf16 "5550000", utf16 "yo", true⟩] }).1.isTyping = false ∧
    (onmessage ⟨utf16 "me", utf16 "5550000", utf16 "deaf"⟩ 7
        (.message (utf16 "5551234") (utf16 "hi"))
        { ChatState.init with
          activeContact := some ⟨utf16 "Ann", utf16 "5551234", utf16 "hearing"⟩
          isTyping := true
          messages := [⟨utf16 "5550000", utf16 "yo", true⟩] }).1.messages =
      [⟨utf16 "5550000", utf16 "yo", true⟩] ++ [⟨utf16 "5551234", utf16 "hi", false⟩] :=
  ⟨rfl, onmessage_message_active _ 7 ⟨utf16 "Ann", utf16 "5551234", utf16 "hearing"⟩
    (utf16 "5551234") (utf16 "hi") _ rfl (by decide)⟩

/-! ### The `isMe` flag -/

/-- C3 fails on the code: the session user looks up their own number, which
makes them the active contact, and an inbound `message` event from that number
is appended with `isMe = false` although its sender is the session user. -/
theorem isMe_not_derived_for_own_number :
    (runChat ⟨utf16 "me", utf16 "5550000", utf16 "deaf"⟩
      [.editSearch (utf16 "5550000"),
       .search (some ⟨utf16 "me", utf16 "5550000", utf16 "deaf"⟩) (some []),
       .inbound 0 (.message (utf16 "5550000") (utf16 "hi"))]).messages =
      [⟨utf16 "5550000", utf16 "hi", false⟩] ∧
    isMeDerived ⟨utf16 "me", utf16 "5550000", utf16 "deaf"⟩
      ⟨utf16 "5550000", utf16 "hi", false⟩ = false := by
  decide

/-! ### Sending -/

/-- C4: with an active contact and a compose text that is not blank after
trimming, `sendMessage` appends exactly one message with the session user's
phone, the compose text and `isMe = true` to the end of the list and clears
the compose text, whether the socket is open or not; with a blank compose text
or without an active contact the message list is unchanged. -/
theorem sendMessage_appends (user : User) (socketOpen : Bool) (s : ChatState) :
    (∀ c, s.activeContact = some c → trim s.inputText ≠ [] →
      (sendMessage user socketOpen s).1.messages =
        s.messages ++ [⟨user.phone, s.inputText, true⟩] ∧
      (sendMessage user socketOpen s).1.inputText = []) ∧
    (trim s.inputText = [] ∨ s.activeContact = none →
      (sendMessage user socketOpen s).1.messages = s.messages) := by
  constructor
  · intro c hc ht
    have h1 : truthy (trim s.inputText) = true := by
      cases h : trim s.inputText with
      | nil => exact absurd h ht
      | cons a l => simp [truthy]
    simp [sendMessage, h1, hc]
  · intro h
    rcases h with h | h
    · simp [sendMessage, truthy, h]
    · unfold sendMessage
      split
      · rfl
      · simp [h]

/-- Witness for C4: Ann is active, the compose text is " hi " and the socket is
closed; then a blank compose text, and no active contact. -/
theorem sendMessage_appends_witness :
    ((sendMessage ⟨utf16 "me", utf16 "5550000", utf16 "deaf"⟩ false
        { ChatState.init with
          activeContact := some ⟨utf16 "Ann", utf16 "5551234", utf16 "hearing"⟩
          inputText := utf16 " hi " }).1.messages =
      [] ++ [⟨utf16 "5550000", utf16 " hi ", true⟩] ∧
     (sendMessage ⟨utf16 "me", utf16 "5550000", utf16 "deaf"⟩ false
        { ChatState.init with
          activeContact := some ⟨utf16 "Ann", utf16 "5551234", utf16 "hearing"⟩
          inputText := utf16 " hi " }).1.inputText = []) ∧
    (sendMessage ⟨utf16 "me", utf16 "5550000", utf16 "deaf"⟩ true
        { ChatState.init with
          activeContact := some ⟨utf16 "Ann", utf16 "5551234", utf16 "hearing"⟩
          inputText := utf16 "  " }).1.messages = [] ∧
    (sendMessage ⟨utf16 "me", utf16 "5550000", utf16 "deaf"⟩ true
        { ChatState.init with inputText := utf16 "hi" }).1.messages = [] :=
  ⟨(sendMessage_appends ⟨utf16 "me", utf16 "5550000", utf16 "deaf"⟩ false
      { ChatState.init with
        activeContact := some ⟨utf16 "Ann", utf16 "5551234", utf16 "hearing"⟩
        inputText := utf16 " hi " }).1 _ rfl (by decide),
   (sendMessage_appends ⟨utf16 "me", utf16 "5550000", utf16 "deaf"⟩ true
      { ChatState.init with
        activeContact := some ⟨utf16 "Ann", utf16 "5551234", utf16 "hearing"⟩
        inputText := utf16 "  " }).2 (Or.inl (by decide)),
   (sendMessage_appends ⟨utf16 "me", utf16 "5550000", utf16 "deaf"⟩ true
      { ChatState.init with inputText := utf16 "hi" }).2 (Or.inr rfl)⟩

/-! ### Shared lemmas -/

theorem truthy_of_ne_nil (x : JSString) (h : x ≠ []) : truthy x = true := by
  cases x with
  | nil => exact absurd rfl h
  | cons a l => rfl

theorem afterRender_playQueue (a b : ChatState) :
    (afterRender a b).playQueue = b.playQueue := by
  unfold afterRender; split_ifs <;> rfl

theorem afterRender_currentVideoIndex (a b : ChatState) :
    (afterRender a b).currentVideoIndex = b.currentVideoIndex := by
  unfold afterRender; split_ifs <;> rfl

theorem afterRender_isPlayerOpen (a b : ChatState) :
    (afterRender a b).isPlayerOpen = b.isPlayerOpen := by
  unfold afterRender; split_ifs <;> rfl

theorem afterRender_showReplay (a b : ChatState) (h : b.showReplay = false) :
    (afterRender a b).showReplay = false := by
  unfold afterRender; split_ifs <;> simp [h]

theorem hasOnEnded_iff (s : ChatState) :
    hasOnEnded s = true ↔
      0 ≤ s.currentVideoIndex ∧ s.currentVideoIndex + 1 < (s.playQueue.length : Int) := by
  simp [hasOnEnded]; omega

/-! ### Video playback controller -/

/-- C5: the player shows the video at index `i` of a queue of length `n` (the
`video` element exists and is playing, so `attemptPlay` has cleared
`showReplay`).  On the natural end of that video, if `i < n - 1` the index
becomes `i + 1`, the `src` prop is `queue[i + 1]` and the replay overlay is not
shown; if `i = n - 1` the index stays `i` and the replay overlay is shown.  The
queue itself is unchanged in both cases. -/
theorem natural_end_advances_or_offers_replay (s : ChatState) (i : Nat)
    (hidx : s.currentVideoIndex = (i : Int))
    (hvid : videoPresent s = true) (hplay : s.showReplay = false) :
    (i + 1 < s.playQueue.length →
      (handleVideoEnded s).currentVideoIndex = (i : Int) + 1 ∧
      (handleVideoEnded s).playQueue = s.playQueue ∧
      playerSrc (handleVideoEnded s) = s.playQueue[i + 1]? ∧
      replayShown (handleVideoEnded s) = false) ∧
    (i + 1 = s.playQueue.length →
      (handleVideoEnded s).currentVideoIndex = (i : Int) ∧
      (handleVideoEnded s).playQueue = s.playQueue ∧
      replayShown (handleVideoEnded s) = true) := by
  constructor
  · intro hlt
    have he : hasOnEnded s = true := (hasOnEnded_iff s).2 (by omega)
    have hq : (handleVideoEnded s).playQueue = s.playQueue := by
      simp [handleVideoEnded, he, afterRender_playQueue]
    have hx : (handleVideoEnded s).currentVideoIndex = (i : Int) + 1 := by
      simp [handleVideoEnded, he, afterRender_currentVideoIndex, hidx]
    have hr : (handleVideoEnded s).showReplay = false := by
      simp only [handleVideoEnded, he, if_true]
      exact afterRender_showReplay _ _ hplay
    refine ⟨hx, hq, ?_, ?_⟩
    · have h0 : (0 : Int) ≤ (i : Int) + 1 := by omega
      have h1 : ((i : Int) + 1).toNat = i + 1 := by omega
      simp [playerSrc, hx, hq, h0, h1]
    · simp [replayShown, hr]
  · intro heq
    have he : hasOnEnded s = false := by
      cases h : hasOnEnded s with
      | false => rfl
      | true => have := (hasOnEnded_iff s).1 h; omega
    have hv : videoPresent { s with showReplay := true } = true := hvid
    have he2 : hasOnEnded { s with showReplay := true } = false := he
    refine ⟨?_, ?_, ?_⟩
    · simp [handleVideoEnded, he, hidx]
    · simp [handleVideoEnded, he]
    · simp [handleVideoEnded, he, replayShown, hv, he2]

/-- Witness for C5, the two-item queue: the end of item 0 advances to item 1
without the replay overlay, the end of item 1 shows the overlay and stays. -/
theorem natural_end_two_item_queue :
    ((handleVideoEnded { ChatState.init with
        playQueue := [utf16 "a.mp4", utf16 "b.mp4"], currentVideoIndex := 0,
        isPlayerOpen := true }).currentVideoIndex = ((0 : Nat) : Int) + 1 ∧
     (handleVideoEnded { ChatState.init with
        playQueue := [utf16 "a.mp4", utf16 "b.mp4"], currentVideoIndex := 0,
        isPlayerOpen := true }).playQueue = [utf16 "a.mp4", utf16 "b.mp4"] ∧
     playerSrc (handleVideoEnded { ChatState.init with
        playQueue := [utf16 "a.mp4", utf16 "b.mp4"], currentVideoIndex := 0,
        isPlayerOpen := true }) = [utf16 "a.mp4", utf16 "b.mp4"][0 + 1]? ∧
     replayShown (handleVideoEnded { ChatState.init with
        playQueue := [utf16 "a.mp4", utf16 "b.mp4"], currentVideoIndex := 0,
        isPlayerOpen := true }) = false) ∧
    ((handleVideoEnded { ChatState.init with
        playQueue := [utf16 "a.mp4", utf16 "b.mp4"], currentVideoIndex := 1,
        isPlayerOpen := true }).currentVideoIndex = ((1 : Nat) : Int) ∧
     (handleVideoEnded { ChatState.init with
        playQueue := [utf16 "a.mp4", utf16 "b.mp4"], currentVideoIndex := 1,
        isPlayerOpen := true }).playQueue = [utf16 "a.mp4", utf16 "b.mp4"] ∧
     replayShown (handleVideoEnded { ChatState.init with
        playQueue := [utf16 "a.mp4", utf16 "b.mp4"], currentVideoIndex := 1,
        isPlayerOpen := true }) = true) :=
  ⟨(natural_end_advances_or_offers_replay
      { ChatState.init with
        playQueue := [utf16 "a.mp4", utf16 "b.mp4"], currentVideoIndex := 0,
        isPlayerOpen := true } 0 rfl (by decide) rfl).1 (by decide),
   (natural_end_advances_or_offers_replay
      { ChatState.init with
        playQueue := [utf16 "a.mp4", utf16 "b.mp4"], currentVideoIndex := 1,
        isPlayerOpen := true } 1 rfl (by decide) rfl).2 (by decide)⟩

/-- The close handler run and rendered at once is the updates of `onClose`
followed by the render. -/
theorem closePlayer_eq (s : ChatState) :
    closePlayer s = afterRender s (applyUpdates s closeUpdates) := rfl

/-- The replay handler run and rendered at once is the updates of
`handleReplayClick` followed by the render. -/
theorem handleReplayClick_eq (s : ChatState) :
    handleReplayClick s = afterRender s (applyUpdates s replayUpdates) := rfl

/-- With an `onEnded` prop, the end handler run and rendered at once is the
updates of `handleVideoEnded` followed by the render. -/
theorem handleVideoEnded_eq (s : ChatState) (h : hasOnEnded s = true) :
    handleVideoEnded s = afterRender s (applyUpdates s (endedUpdates s)) := by
  simp [handleVideoEnded, endedUpdates, h, applyUpdates, applyUpdate]

theorem inRange_afterRender (a b : ChatState) (h : InRange b) : InRange (afterRender a b) := by
  unfold InRange
  rw [afterRender_currentVideoIndex, afterRender_playQueue]
  exact h

theorem inRange_translateUpdates (s : ChatState) (sequence : List SeqItem) (h : InRange s) :
    InRange (applyUpdates s (translateUpdates sequence)) := by
  unfold translateUpdates
  split_ifs with h1
  · simp only [applyUpdates, List.foldl, applyUpdate, InRange]
    constructor
    · omega
    · exact_mod_cast h1
  · exact h

theorem inRange_endedUpdates (s : ChatState) (h : InRange s) :
    InRange (applyUpdates s (endedUpdates s)) := by
  unfold endedUpdates
  split_ifs with h1
  · have := (hasOnEnded_iff s).1 h1
    simp only [applyUpdates, List.foldl, applyUpdate, InRange]
    omega
  · exact h

theorem inRange_replayUpdates (s : ChatState) (hshown : replayShown s = true) :
    InRange (applyUpdates s replayUpdates) := by
  have hm : 0 < s.playQueue.length := by
    simp [replayShown, videoPresent, playerMounted] at hshown
    omega
  simp only [replayUpdates, applyUpdates, List.foldl, applyUpdate, InRange]
  omega

theorem inRange_closeUpdates (s : ChatState) : InRange (applyUpdates s closeUpdates) := by
  simp [closeUpdates, applyUpdates, applyUpdate, InRange]

theorem index_in_range_rendered_step (s : ChatState) (op : PlayerOp) (h : InRange s) :
    ∃ t, stepPlayer (stepPlayer ⟨s, s⟩ op) .render = ⟨t, t⟩ ∧ InRange t := by
  cases op with
  | translated sequence =>
    exact ⟨_, rfl, inRange_afterRender _ _ (inRange_translateUpdates s sequence h)⟩
  | ended =>
    by_cases h1 : videoPresent s = true
    · refine ⟨afterRender s (applyUpdates s (endedUpdates s)), ?_, ?_⟩
      · simp [stepPlayer, h1]
      · exact inRange_afterRender _ _ (inRange_endedUpdates s h)
    · refine ⟨afterRender s s, ?_, inRange_afterRender _ _ h⟩
      simp [stepPlayer, h1]
  | replay =>
    by_cases h1 : replayShown s = true
    · refine ⟨afterRender s (applyUpdates s replayUpdates), ?_, ?_⟩
      · simp [stepPlayer, h1]
      · exact inRange_afterRender _ _ (inRange_replayUpdates s h1)
    · refine ⟨afterRender s s, ?_, inRange_afterRender _ _ h⟩
      simp [stepPlayer, h1]
  | close =>
    by_cases h1 : videoPresent s = true
    · refine ⟨afterRender s (applyUpdates s closeUpdates), ?_, ?_⟩
      · simp [stepPlayer, h1]
      · exact inRange_afterRender _ _ (inRange_closeUpdates s)
    · refine ⟨afterRender s s, ?_, inRange_afterRender _ _ h⟩
      simp [stepPlayer, h1]
  | render =>
    exact ⟨_, rfl, inRange_afterRender _ _ (inRange_afterRender _ _ h)⟩

/-- What does hold of the index: when every operation is rendered before the
next one arrives, the index stays at least -1 and below the length of the
play queue. -/
theorem index_in_range_rendered (ops : List PlayerOp) :
    ∃ t, runPlayerRendered PlayerView.init ops = ⟨t, t⟩ ∧ InRange t := by
  have key : ∀ (l : List PlayerOp) (s : ChatState), InRange s →
      ∃ t, runPlayerRendered ⟨s, s⟩ l = ⟨t, t⟩ ∧ InRange t := by
    intro l
    induction l with
    | nil => intro s h; exact ⟨s, rfl, h⟩
    | cons op rest ih =>
      intro s h
      obtain ⟨t, ht, hin⟩ := index_in_range_rendered_step s op h
      obtain ⟨u, hu, huin⟩ := ih t hin
      refine ⟨u, ?_, huin⟩
      simp only [runPlayerRendered, List.foldl] at hu ⊢
      rw [ht]
      exact hu
  exact key ops ChatState.init (by unfold InRange; decide)

/-- C6 fails on the code.  The `onEnded` prop tests the bound in the render
that builds it and its updater `p => p+1` does not test.  A two-item queue
plays item 0; the translation of another message resolves with one video, so
the queue becomes that one video with index 0; the `ended` event of the video
still on screen is handled before the next render and moves the index to 1.
The render that follows has a queue of length 1 with index 1, and no `src`.
When the three updates of the translation are rendered one by one instead,
the render after `setPlayQueue`, with item 1 of two playing, has the new
one-item queue with the old index 1. -/
theorem index_out_of_range_after_stale_ended :
    ((runPlayer PlayerView.init
        [.translated [⟨utf16 "video", utf16 "a.mp4"⟩, ⟨utf16 "video", utf16 "b.mp4"⟩],
         .render,
         .translated [⟨utf16 "video", utf16 "c.mp4"⟩],
         .ended,
         .render]).rendered.playQueue = [utf16 "c.mp4"] ∧
     (runPlayer PlayerView.init
        [.translated [⟨utf16 "video", utf16 "a.mp4"⟩, ⟨utf16 "video", utf16 "b.mp4"⟩],
         .render,
         .translated [⟨utf16 "video", utf16 "c.mp4"⟩],
         .ended,
         .render]).rendered.currentVideoIndex = 1 ∧
     (runPlayer PlayerView.init
        [.translated [⟨utf16 "video", utf16 "a.mp4"⟩, ⟨utf16 "video", utf16 "b.mp4"⟩],
         .render,
         .translated [⟨utf16 "video", utf16 "c.mp4"⟩],
         .ended,
         .render]).rendered.isPlayerOpen = true ∧
     playerSrc (runPlayer PlayerView.init
        [.translated [⟨utf16 "video", utf16 "a.mp4"⟩, ⟨utf16 "video", utf16 "b.mp4"⟩],
         .render,
         .translated [⟨utf16 "video", utf16 "c.mp4"⟩],
         .ended,
         .render]).rendered = none) ∧
    ((runPlayer PlayerView.init
        [.translated [⟨utf16 "video", utf16 "a.mp4"⟩, ⟨utf16 "video", utf16 "b.mp4"⟩],
         .render, .ended, .render]).rendered.currentVideoIndex = 1 ∧
     (afterRender
        (runPlayer PlayerView.init
          [.translated [⟨utf16 "video", utf16 "a.mp4"⟩, ⟨utf16 "video", utf16 "b.mp4"⟩],
           .render, .ended, .render]).rendered
        (applyUpdates
          (runPlayer PlayerView.init
            [.translated [⟨utf16 "video", utf16 "a.mp4"⟩, ⟨utf16 "video", utf16 "b.mp4"⟩],
             .render, .ended, .render]).cur
          ((translateUpdates [⟨utf16 "video", utf16 "c.mp4"⟩]).take 1))).playQueue =
       [utf16 "c.mp4"] ∧
     (afterRender
        (runPlayer PlayerView.init
          [.translated [⟨utf16 "video", utf16 "a.mp4"⟩, ⟨utf16 "video", utf16 "b.mp4"⟩],
           .render, .ended, .render]).rendered
        (applyUpdates
          (runPlayer PlayerView.init
            [.translated [⟨utf16 "video", utf16 "a.mp4"⟩, ⟨utf16 "video", utf16 "b.mp4"⟩],
             .render, .ended, .render]).cur
          ((translateUpdates [⟨utf16 "video", utf16 "c.mp4"⟩]).take 1))).currentVideoIndex =
       1) := by
  decide

/-! ### Contact directory -/

/-- What does hold of a search: when the response is handled in the very state
in which the request went out, the contact found is put in front of the
directory when no entry has its phone, the directory is unchanged when some
entry has it, and the contact becomes the active contact in both cases. -/
theorem handleSearch_found (user : User) (c : Contact) (history : Option (List RawMessage))
    (s : ChatState) (call : SearchCall) (hcall : handleSearchCall s = some call) :
    ((∀ e ∈ s.recentChats, e.phone ≠ c.phone) →
      (handleSearch user call (some c) history s).1.recentChats = c :: s.recentChats) ∧
    ((∃ e ∈ s.recentChats, e.phone = c.phone) →
      (handleSearch user call (some c) history s).1.recentChats = s.recentChats) ∧
    (handleSearch user call (some c) history s).1.activeContact = some c := by
  have hrc : call.recentChats = s.recentChats := by
    unfold handleSearchCall at hcall
    split_ifs at hcall
    cases hcall
    rfl
  refine ⟨?_, ?_, ?_⟩
  · intro hno
    have hf : call.recentChats.find? (fun e => e.phone == c.phone) = none := by
      rw [hrc, List.find?_eq_none]
      intro e he
      simpa using hno e he
    cases history <;> simp [handleSearch, hf, handleContactSelect]
  · intro hex
    obtain ⟨e, he, hp⟩ := hex
    have hf : (call.recentChats.find? (fun e => e.phone == c.phone)).isNone = false := by
      rw [hrc]
      cases hfind : s.recentChats.find? (fun e => e.phone == c.phone) with
      | some x => rfl
      | none =>
        rw [List.find?_eq_none] at hfind
        have := hfind e he
        simp [hp] at this
    cases history <;> simp [handleSearch, hf, handleContactSelect]
  · cases history <;> simp [handleSearch, handleContactSelect]

/-- C7 fails on the code.  The directory holds Bob and the search field holds
"5551234"; Enter is pressed twice before a response arrives, so both calls of
`handleSearch` hold the directory without Ann.  The first response, Ann, puts
Ann at position 0 and makes Ann active.  The second response, Ann again, finds
the directory with an entry of Ann's phone, and puts Ann in front once more. -/
theorem handleSearch_twice_duplicates :
    handleSearchCall { ChatState.init with
        searchPhone := utf16 "5551234"
        recentChats := [⟨utf16 "Bob", utf16 "5559999", utf16 "deaf"⟩] } =
      some ⟨[⟨utf16 "Bob", utf16 "5559999", utf16 "deaf"⟩], utf16 "5551234"⟩ ∧
    ((handleSearch ⟨utf16 "me", utf16 "5550000", utf16 "deaf"⟩
        ⟨[⟨utf16 "Bob", utf16 "5559999", utf16 "deaf"⟩], utf16 "5551234"⟩
        (some ⟨utf16 "Ann", utf16 "5551234", utf16 "hearing"⟩) (some [])
        { ChatState.init with
          searchPhone := utf16 "5551234"
          recentChats := [⟨utf16 "Bob", utf16 "5559999", utf16 "deaf"⟩] }).1.recentChats =
      [⟨utf16 "Ann", utf16 "5551234", utf16 "hearing"⟩,
       ⟨utf16 "Bob", utf16 "5559999", utf16 "deaf"⟩] ∧
     (handleSearch ⟨utf16 "me", utf16 "5550000", utf16 "deaf"⟩
        ⟨[⟨utf16 "Bob", utf16 "5559999", utf16 "deaf"⟩], utf16 "5551234"⟩
        (some ⟨utf16 "Ann", utf16 "5551234", utf16 "hearing"⟩) (some [])
        { ChatState.init with
          searchPhone := utf16 "5551234"
          recentChats := [⟨utf16 "Bob", utf16 "5559999", utf16 "deaf"⟩] }).1.activeContact =
      some ⟨utf16 "Ann", utf16 "5551234", utf16 "hearing"⟩) ∧
    (handleSearch ⟨utf16 "me", utf16 "5550000", utf16 "deaf"⟩
        ⟨[⟨utf16 "Bob", utf16 "5559999", utf16 "deaf"⟩], utf16 "5551234"⟩
        (some ⟨utf16 "Ann", utf16 "5551234", utf16 "hearing"⟩) (some [])
        (handleSearch ⟨utf16 "me", utf16 "5550000", utf16 "deaf"⟩
          ⟨[⟨utf16 "Bob", utf16 "5559999", utf16 "deaf"⟩], utf16 "5551234"⟩
          (some ⟨utf16 "Ann", utf16 "5551234", utf16 "hearing"⟩) (some [])
          { ChatState.init with
            searchPhone := utf16 "5551234"
            recentChats := [⟨utf16 "Bob", utf16 "5559999", utf16 "deaf"⟩] }).1).1.recentChats =
      [⟨utf16 "Ann", utf16 "5551234", utf16 "hearing"⟩,
       ⟨utf16 "Ann", utf16 "5551234", utf16 "hearing"⟩,
       ⟨utf16 "Bob", utf16 "5559999", utf16 "deaf"⟩] := by
  decide

/-! ### Translation -/

theorem videoSeq_eq_videoUrls (sequence : List SeqItem) :
    videoSeq sequence = videoUrls sequence := by
  induction sequence with
  | nil => rfl
  | cons i rest ih =>
    by_cases h : i.type = utf16 "video"
    · simp [videoSeq, videoUrls, h, List.filter_cons] at ih ⊢
      exact ih
    · simp [videoSeq, videoUrls, h, List.filter_cons] at ih ⊢
      exact ih

/-- C8: the list `playTranslation` derives from a translate response is the
url fields of the items of type "video" in response order, and when that list
is not empty it becomes the play queue, with index 0 and the player open (the
request is issued when the filtered text is not empty). -/
theorem playTranslation_queue (text : JSString) (sequence : List SeqItem) (s : ChatState)
    (hclean : cleanText text ≠ []) :
    videoSeq sequence = videoUrls sequence ∧
    (videoUrls sequence ≠ [] →
      (playTranslation text (some sequence) s).1.playQueue = videoUrls sequence ∧
      (playTranslation text (some sequence) s).1.currentVideoIndex = 0 ∧
      (playTranslation text (some sequence) s).1.isPlayerOpen = true) := by
  refine ⟨videoSeq_eq_videoUrls sequence, ?_⟩
  intro hne
  rw [← videoSeq_eq_videoUrls] at hne ⊢
  have ht := truthy_of_ne_nil _ hclean
  have hl : 0 < (videoSeq sequence).length := List.length_pos.2 hne
  simp [playTranslation, ht, hl, afterRender_playQueue, afterRender_currentVideoIndex,
    afterRender_isPlayerOpen]

/-- Witness for C8: the response video a.mp4, text x, video b.mp4 to the text
"hello" gives the queue a.mp4, b.mp4 at index 0 with the player open. -/
theorem playTranslation_queue_example :
    (playTranslation (utf16 "hello")
        (some [⟨utf16 "video", utf16 "a.mp4"⟩, ⟨utf16 "text", utf16 "x"⟩,
               ⟨utf16 "video", utf16 "b.mp4"⟩]) ChatState.init).1.playQueue =
      videoUrls [⟨utf16 "video", utf16 "a.mp4"⟩, ⟨utf16 "text", utf16 "x"⟩,
                 ⟨utf16 "video", utf16 "b.mp4"⟩] ∧
    videoUrls [⟨utf16 "video", utf16 "a.mp4"⟩, ⟨utf16 "text", utf16 "x"⟩,
               ⟨utf16 "video", utf16 "b.mp4"⟩] = [utf16 "a.mp4", utf16 "b.mp4"] ∧
    (playTranslation (utf16 "hello")
        (some [⟨utf16 "video", utf16 "a.mp4"⟩, ⟨utf16 "text", utf16 "x"⟩,
               ⟨utf16 "video", utf16 "b.mp4"⟩]) ChatState.init).1.currentVideoIndex = 0 ∧
    (playTranslation (utf16 "hello")
        (some [⟨utf16 "video", utf16 "a.mp4"⟩, ⟨utf16 "text", utf16 "x"⟩,
               ⟨utf16 "video", utf16 "b.mp4"⟩]) ChatState.init).1.isPlayerOpen = true :=
  have h := (playTranslation_queue (utf16 "hello")
      [⟨utf16 "video", utf16 "a.mp4"⟩, ⟨utf16 "text", utf16 "x"⟩,
       ⟨utf16 "video", utf16 "b.mp4"⟩] ChatState.init (by decide)).2 (by decide)
  ⟨h.1, by decide, h.2.1, h.2.2⟩

/-- C9 fails on the code.  For the first board entry as the source file spells
it, the pre-filter returns the board's output unchanged.  For the pictographs
those spellings stand for, the plate with variation selector loses its
surrogate pair but keeps the selector `FE0F` in front of " eat", and the
pointing hand `D83E DEF5` lies outside `\uD83E[\uDD10-\uDDFF]` and is kept
whole. -/
theorem cleanText_keeps_symbol :
    (("рЯС§", "I") ∈ AAC_DICTIONARY ∧
      cleanText (boardOutput ("рЯС§", "I")) = boardOutput ("рЯС§", "I") ∧
      cleanText (boardOutput ("рЯС§", "I")) ≠ utf16 "I") ∧
    (utf16 "🍽️ eat" = [0xD83C, 0xDF7D, 0xFE0F, 0x20, 0x65, 0x61, 0x74] ∧
      cleanText (utf16 "🍽️ eat") = [0xFE0F, 0x20, 0x65, 0x61, 0x74] ∧
      cleanText (utf16 "🍽️ eat") ≠ utf16 "eat") ∧
    (utf16 "🫵 You" = [0xD83E, 0xDEF5, 0x20, 0x59, 0x6F, 0x75] ∧
      cleanText (utf16 "🫵 You") = utf16 "🫵 You" ∧
      cleanText (utf16 "🫵 You") ≠ utf16 "You") := by
  decide

/-! ### Typing indicator -/

theorem advance_activeContact (t : Nat) (s : ChatState) :
    (advance t s).activeContact = s.activeContact := by
  unfold advance; split_ifs <;> rfl

theorem advance_tracked (t : Nat) (s : ChatState) (h : TimersTracked s) :
    TimersTracked (advance t s) := by
  unfold advance
  split_ifs
  · intro tm htm
    exact h tm (List.mem_of_mem_filter htm)
  · exact h

theorem typing_arms (user : User) (c : Contact) (t : Nat) (s : ChatState)
    (hc : s.activeContact = some c) (h : TimersTracked s) :
    Armed c t (onmessage user t (.typing c.phone) s).1 := by
  have hf : isFromActiveContact c.phone s = true := by simp [isFromActiveContact, hc]
  cases hr : s.typingTimeoutRef with
  | none =>
    have hnil : s.timers = [] := by
      cases hts : s.timers with
      | nil => rfl
      | cons tm l =>
        have := h tm (by simp [hts])
        rw [hr] at this
        exact absurd this (by simp)
    refine ⟨?_, ?_, s.nextTimerId, ?_, ?_⟩ <;> simp [onmessage, hf, hr, hc, hnil]
  | some id =>
    have hnil : s.timers.filter (fun tm => tm.id != id) = [] := by
      rw [List.filter_eq_nil_iff]
      intro tm htm
      have := h tm htm
      rw [hr] at this
      simp at this
      simp [this]
    refine ⟨?_, ?_, s.nextTimerId, ?_, ?_⟩ <;> simp [onmessage, hf, hr, hc, clearTimeout, hnil]

theorem armed_tracked (c : Contact) (t : Nat) (s : ChatState) (h : Armed c t s) :
    TimersTracked s := by
  obtain ⟨_, _, id, hr, ht⟩ := h
  intro tm htm
  rw [ht] at htm
  simp at htm
  rw [hr, htm]

theorem armed_advance_before (c : Contact) (t u : Nat) (s : ChatState) (h : Armed c t s)
    (hu : u < t + typingDelay) : advance u s = s := by
  obtain ⟨_, _, id, _, ht⟩ := h
  unfold advance
  rw [ht]
  simp
  omega

theorem armed_advance_after (c : Contact) (t u : Nat) (s : ChatState) (h : Armed c t s)
    (hu : t + typingDelay ≤ u) : (advance u s).isTyping = false := by
  obtain ⟨_, _, id, _, ht⟩ := h
  unfold advance
  rw [ht]
  simp [hu]

theorem filter_le_eq_nil (u t : Nat) (rest : List Nat)
    (hch : closelySpaced u rest = true) (h : t < u) :
    (u :: rest).filter (fun e => decide (e ≤ t)) = [] := by
  induction rest generalizing u with
  | nil => simp; omega
  | cons v l ih =>
    simp only [closelySpaced, Bool.and_eq_true, decide_eq_true_eq] at hch
    have := ih v hch.2 (by omega)
    rw [List.filter_cons]
    simp [this]
    omega

theorem le_lastTime (u : Nat) (rest : List Nat)
    (hch : closelySpaced u rest = true) :
    u ≤ lastTime u rest := by
  induction rest generalizing u with
  | nil => exact Nat.le_refl _
  | cons v l ih =>
    simp only [closelySpaced, Bool.and_eq_true, decide_eq_true_eq] at hch
    have := ih v hch.2
    simp only [lastTime]
    omega

theorem indicator_armed (user : User) (c : Contact) (rest : List Nat) :
    ∀ (t0 : Nat) (s : ChatState), Armed c t0 s →
      closelySpaced t0 rest = true →
      ∀ t, t0 ≤ t →
        (t < lastTime t0 rest + typingDelay →
          indicatorAt user c.phone rest s t = true) ∧
        (lastTime t0 rest + typingDelay ≤ t →
          indicatorAt user c.phone rest s t = false) := by
  induction rest with
  | nil =>
    intro t0 s ha _ t _
    obtain ⟨_, hty, _⟩ := id ha
    constructor
    · intro hlt
      simp only [indicatorAt, List.filter_nil, runTyping, lastTime] at *
      rw [armed_advance_before c t0 t s ha hlt]
      exact hty
    · intro hge
      simp only [indicatorAt, List.filter_nil, runTyping, lastTime] at *
      exact armed_advance_after c t0 t s ha hge
  | cons u l ih =>
    intro t0 s ha hch t ht
    simp only [closelySpaced, Bool.and_eq_true, decide_eq_true_eq] at hch
    obtain ⟨⟨h1, h2⟩, hch2⟩ := hch
    obtain ⟨hc, hty, _⟩ := id ha
    by_cases hut : u ≤ t
    · have hstep : Armed c u (onmessage user u (.typing c.phone) (advance u s)).1 :=
        typing_arms user c u (advance u s) (by rw [advance_activeContact]; exact hc)
          (advance_tracked u s (armed_tracked c t0 s ha))
      have := ih u _ hstep hch2 t hut
      simpa [indicatorAt, List.filter_cons, hut, runTyping, lastTime] using this
    · have hlt : t < u := by omega
      have hnil := filter_le_eq_nil u t l hch2 hlt
      have hlast := le_lastTime u l hch2
      constructor
      · intro _
        simp only [indicatorAt, hnil, runTyping]
        rw [armed_advance_before c t0 t s ha (by omega)]
        exact hty
      · intro hge
        simp only [lastTime] at hge
        omega

theorem onmessage_tracked (user : User) (now : Nat) (data : WsData) (s : ChatState)
    (h : TimersTracked s) : TimersTracked (onmessage user now data s).1 := by
  cases data with
  | typing sender =>
    cases hc : s.activeContact with
    | none => simpa [onmessage, isFromActiveContact, hc] using h
    | some c =>
      by_cases hs : sender = c.phone
      · subst hs
        exact armed_tracked c now _ (typing_arms user c now s hc h)
      · have hf : isFromActiveContact sender s = false := by
          simp [isFromActiveContact, hc, hs]
        simpa [onmessage, hf] using h
  | message sender text =>
    unfold onmessage
    simp only []
    split_ifs <;> exact h
  | other => exact h

theorem stepChat_tracked (user : User) (s : ChatState) (ev : ChatEvent)
    (h : TimersTracked s) : TimersTracked (stepChat user s ev) := by
  cases ev with
  | editSearch value => exact h
  | search response history =>
    simp only [stepChat]
    cases handleSearchCall s with
    | none => exact h
    | some call =>
      cases response with
      | none => exact h
      | some found =>
        simp only [handleSearch, handleContactSelect]
        cases history <;> split_ifs <;> exact h
  | recents data => exact h
  | select contact history =>
    simp only [stepChat, handleContactSelect]
    split_ifs
    · cases history <;> exact h
    · exact h
  | edit value socketOpen => exact h
  | send socketOpen =>
    simp only [stepChat, sendMessage]
    by_cases ht : (!truthy (trim s.inputText)) = true
    · rw [if_pos ht]; exact h
    · rw [if_neg ht]
      cases s.activeContact <;> exact h
  | inbound now data => exact onmessage_tracked user now data s h

/-- The hypothesis on pending timers of the typing theorems holds in every
state the conversation view reaches from mount. -/
theorem runChat_tracked (user : User) (evs : List ChatEvent) :
    TimersTracked (runChat user evs) := by
  have key : ∀ (l : List ChatEvent) (s : ChatState), TimersTracked s →
      TimersTracked (l.foldl (stepChat user) s) := by
    intro l
    induction l with
    | nil => intro s h; exact h
    | cons ev rest ih => intro s h; exact ih _ (stepChat_tracked user s ev h)
  exact key evs ChatState.init (fun tm hm => absurd hm (List.not_mem_nil tm))

/-- C10: time is explicit, `c` is the active contact throughout and every
pending timer is the one the ref holds.  When `typing` events from `c` arrive
at instants `t1 < t2 < ... < tn` with every gap below 2000 ms and nothing else
happens, the typing indicator is true at every instant `t` with
`t1 ≤ t < tn + 2000` and false at every instant `t ≥ tn + 2000`: it goes from
true to false once, at `tn + 2000`, and never before. -/
theorem typing_indicator_continuous (user : User) (c : Contact) (s : ChatState)
    (t1 : Nat) (rest : List Nat)
    (hc : s.activeContact = some c) (htr : TimersTracked s)
    (hgap : closelySpaced t1 rest = true) (t : Nat) :
    (t1 ≤ t → t < lastTime t1 rest + typingDelay →
      indicatorAt user c.phone (t1 :: rest) s t = true) ∧
    (lastTime t1 rest + typingDelay ≤ t →
      indicatorAt user c.phone (t1 :: rest) s t = false) := by
  have hlast := le_lastTime t1 rest hgap
  have hstep : Armed c t1 (onmessage user t1 (.typing c.phone) (advance t1 s)).1 :=
    typing_arms user c t1 (advance t1 s) (by rw [advance_activeContact]; exact hc)
      (advance_tracked t1 s htr)
  constructor
  · intro h1 h2
    have := (indicator_armed user c rest t1 _ hstep hgap t h1).1 h2
    simpa [indicatorAt, List.filter_cons, h1, runTyping] using this
  · intro h2
    have h1 : t1 ≤ t := by omega
    have := (indicator_armed user c rest t1 _ hstep hgap t h1).2 h2
    simpa [indicatorAt, List.filter_cons, h1, runTyping] using this

/-- Witness for C10: Ann types at 0, 1500 and 3000 ms; the indicator is on at
0, 1999, 2000 and 4999 ms and off at 5000 ms. -/
theorem typing_indicator_continuous_witness :
    (indicatorAt ⟨utf16 "me", utf16 "5550000", utf16 "deaf"⟩
        (⟨utf16 "Ann", utf16 "5551234", utf16 "hearing"⟩ : Contact).phone [0, 1500, 3000]
        { ChatState.init with
          activeContact := some ⟨utf16 "Ann", utf16 "5551234", utf16 "hearing"⟩ } 2000 = true) ∧
    (indicatorAt ⟨utf16 "me", utf16 "5550000", utf16 "deaf"⟩
        (⟨utf16 "Ann", utf16 "5551234", utf16 "hearing"⟩ : Contact).phone [0, 1500, 3000]
        { ChatState.init with
          activeContact := some ⟨utf16 "Ann", utf16 "5551234", utf16 "hearing"⟩ } 4999 = true) ∧
    (indicatorAt ⟨utf16 "me", utf16 "5550000", utf16 "deaf"⟩
        (⟨utf16 "Ann", utf16 "5551234", utf16 "hearing"⟩ : Contact).phone [0, 1500, 3000]
        { ChatState.init with
          activeContact := some ⟨utf16 "Ann", utf16 "5551234", utf16 "hearing"⟩ } 5000 = false) :=
  ⟨(typing_indicator_continuous ⟨utf16 "me", utf16 "5550000", utf16 "deaf"⟩
      ⟨utf16 "Ann", utf16 "5551234", utf16 "hearing"⟩
      { ChatState.init with
        activeContact := some ⟨utf16 "Ann", utf16 "5551234", utf16 "hearing"⟩ }
      0 [1500, 3000] rfl (fun tm h => absurd h (List.not_mem_nil tm))
      (by decide) 2000).1 (by decide) (by decide),
   (typing_indicator_continuous ⟨utf16 "me", utf16 "5550000", utf16 "deaf"⟩
      ⟨utf16 "Ann", utf16 "5551234", utf16 "hearing"⟩
      { ChatState.init with
        activeContact := some ⟨utf16 "Ann", utf16 "5551234", utf16 "hearing"⟩ }
      0 [1500, 3000] rfl (fun tm h => absurd h (List.not_mem_nil tm))
      (by decide) 4999).1 (by decide) (by decide),
   (typing_indicator_continuous ⟨utf16 "me", utf16 "5550000", utf16 "deaf"⟩
      ⟨utf16 "Ann", utf16 "5551234", utf16 "hearing"⟩
      { ChatState.init with
        activeContact := some ⟨utf16 "Ann", utf16 "5551234", utf16 "hearing"⟩ }
      0 [1500, 3000] rfl (fun tm h => absurd h (List.not_mem_nil tm))
      (by decide) 5000).2 (by decide)⟩

/-! ### Typing events from another sender -/

/-- C11: for an inbound `typing` event whose sender is not the active contact's
phone, and for one received while no contact is active, `onmessage` leaves the
typing indicator, the pending debounce timer (the stored handle and the table
of pending timers) and the message list unchanged; it changes nothing at all
and issues no effect. -/
theorem onmessage_typing_not_active (user : User) (now : Nat) (sender : JSString)
    (s : ChatState)
    (h : s.activeContact = none ∨ ∃ c, s.activeContact = some c ∧ sender ≠ c.phone) :
    (onmessage user now (.typing sender) s).1.isTyping = s.isTyping ∧
    (onmessage user now (.typing sender) s).1.typingTimeoutRef = s.typingTimeoutRef ∧
    (onmessage user now (.typing sender) s).1.timers = s.timers ∧
    (onmessage user now (.typing sender) s).1.messages = s.messages ∧
    onmessage user now (.typing sender) s = (s, []) := by
  have hf : isFromActiveContact sender s = false := by
    rcases h with h | ⟨c, hc, hne⟩
    · simp [isFromActiveContact, h]
    · simp [isFromActiveContact, hc, hne]
  have hs : onmessage user now (.typing sender) s = (s, []) := by
    simp [onmessage, hf]
  rw [hs]
  exact ⟨rfl, rfl, rfl, rfl, rfl⟩

/-- Witness for C11: Ann is active, the indicator is on with its timer pending
and one message is on screen, and Bob types; then a state with no active
contact. -/
theorem onmessage_typing_not_active_witness :
    ((onmessage ⟨utf16 "me", utf16 "5550000", utf16 "deaf"⟩ 900 (.typing (utf16 "5559999"))
        { ChatState.init with
          activeContact := some ⟨utf16 "Ann", utf16 "5551234", utf16 "hearing"⟩
          isTyping := true
          typingTimeoutRef := some 1
          timers := [⟨1, 2500⟩]
          nextTimerId := 2
          messages := [⟨utf16 "5551234", utf16 "yo", false⟩] }).1.isTyping = true ∧
     (onmessage ⟨utf16 "me", utf16 "5550000", utf16 "deaf"⟩ 900 (.typing (utf16 "5559999"))
        { ChatState.init with
          activeContact := some ⟨utf16 "Ann", utf16 "5551234", utf16 "hearing"⟩
          isTyping := true
          typingTimeoutRef := some 1
          timers := [⟨1, 2500⟩]
          nextTimerId := 2
          messages := [⟨utf16 "5551234", utf16 "yo", false⟩] }).1.typingTimeoutRef = some 1 ∧
     (onmessage ⟨utf16 "me", utf16 "5550000", utf16 "deaf"⟩ 900 (.typing (utf16 "5559999"))
        { ChatState.init with
          activeContact := some ⟨utf16 "Ann", utf16 "5551234", utf16 "hearing"⟩
          isTyping := true
          typingTimeoutRef := some 1
          timers := [⟨1, 2500⟩]
          nextTimerId := 2
          messages := [⟨utf16 "5551234", utf16 "yo", false⟩] }).1.timers = [⟨1, 2500⟩] ∧
     (onmessage ⟨utf16 "me", utf16 "5550000", utf16 "deaf"⟩ 900 (.typing (utf16 "5559999"))
        { ChatState.init with
          activeContact := some ⟨utf16 "Ann", utf16 "5551234", utf16 "hearing"⟩
          isTyping := true
          typingTimeoutRef := some 1
          timers := [⟨1, 2500⟩]
          nextTimerId := 2
          messages := [⟨utf16 "5551234", utf16 "yo", false⟩] }).1.messages =
       [⟨utf16 "5551234", utf16 "yo", false⟩]) ∧
    onmessage ⟨utf16 "me", utf16 "5550000", utf16 "deaf"⟩ 900 (.typing (utf16 "5551234"))
        ChatState.init = (ChatState.init, []) :=
  ⟨(have h := onmessage_typing_not_active ⟨utf16 "me", utf16 "5550000", utf16 "deaf"⟩ 900
      (utf16 "5559999")
      { ChatState.init with
        activeContact := some ⟨utf16 "Ann", utf16 "5551234", utf16 "hearing"⟩
        isTyping := true
        typingTimeoutRef := some 1
        timers := [⟨1, 2500⟩]
        nextTimerId := 2
        messages := [⟨utf16 "5551234", utf16 "yo", false⟩] }
      (Or.inr ⟨⟨utf16 "Ann", utf16 "5551234", utf16 "hearing"⟩, rfl, by decide⟩)
    ⟨h.1, h.2.1, h.2.2.1, h.2.2.2.1⟩),
   (onmessage_typing_not_active ⟨utf16 "me", utf16 "5550000", utf16 "deaf"⟩ 900
      (utf16 "5551234") ChatState.init (Or.inl rfl)).2.2.2.2⟩

/-! ### Augmentative input board -/

/-- C12: for every compose text `p` and every pair of symbol and word (so for
every board entry), `handleEmojiSelect` sets the compose text to
`p ++ " " ++ symbol ++ " " ++ word` when `p` is not empty and to
`symbol ++ " " ++ word`, without a leading space, when `p` is empty; `p` is an
initial segment of the result in both cases. -/
theorem handleEmojiSelect_appends (emoji word : JSString) (s : ChatState) :
    (s.inputText ≠ [] →
      (handleEmojiSelect emoji word s).inputText =
        s.inputText ++ utf16 " " ++ emoji ++ utf16 " " ++ word) ∧
    (s.inputText = [] →
      (handleEmojiSelect emoji word s).inputText = emoji ++ utf16 " " ++ word) ∧
    s.inputText <+: (handleEmojiSelect emoji word s).inputText := by
  refine ⟨?_, ?_, ?_⟩
  · intro hne
    simp [handleEmojiSelect, truthy_of_ne_nil _ hne, List.append_assoc]
  · intro he
    simp [handleEmojiSelect, truthy, he]
  · simp only [handleEmojiSelect, List.append_assoc]
    exact List.prefix_append _ _

/-- Witness for C12: the first board entry, as the source file spells its key,
selected on the compose text "hi" and on the empty compose text. -/
theorem handleEmojiSelect_appends_witness :
    ("рЯС§", "I") ∈ AAC_DICTIONARY ∧
    (handleEmojiSelect (utf16 "рЯС§") (utf16 "I")
        { ChatState.init with inputText := utf16 "hi" }).inputText =
      utf16 "hi" ++ utf16 " " ++ utf16 "рЯС§" ++ utf16 " " ++ utf16 "I" ∧
    (handleEmojiSelect (utf16 "рЯС§") (utf16 "I") ChatState.init).inputText =
      utf16 "рЯС§" ++ utf16 " " ++ utf16 "I" ∧
    utf16 "hi" <+: (handleEmojiSelect (utf16 "рЯС§") (utf16 "I")
        { ChatState.init with inputText := utf16 "hi" }).inputText :=
  ⟨by decide,
   (handleEmojiSelect_appends (utf16 "рЯС§") (utf16 "I")
      { ChatState.init with inputText := utf16 "hi" }).1 (by decide),
   (handleEmojiSelect_appends (utf16 "рЯС§") (utf16 "I") ChatState.init).2.1 rfl,
   (handleEmojiSelect_appends (utf16 "рЯС§") (utf16 "I")
      { ChatState.init with inputText := utf16 "hi" }).2.2⟩

end AslChat
